import Mathlib

set_option autoImplicit false

/-!
Shallow embedding of the core of the bao-virtio-dm device model (Rust), together
with proofs about the claims of its specification.

The embedding follows the source files:
  * `src/vmm/src/vm.rs`            (`Vm::run_io`, the dispatch loop)
  * `src/api/src/defines.rs`       (operation codes, ioctl type, eventfd flags)
  * `src/api/src/types.rs`         (`BaoIoRequest`, `BaoIoEventFd`, `BaoIrqFd`)
  * `src/api/src/ioctl.rs`         (the ten ioctl request codes)
  * `src/api/src/device_model.rs`  (`register_ioeventfd`)
  * `src/virtio/src/device.rs`     (`VirtioDeviceCommon::prepare_activate`,
                                    `SingleFdSignalQueue::signal_used_queue`)
  * `src/virtio/src/mmio.rs`       (`MmioConfig::new` / `MmioConfig::next`)
  * `src/virtio/src/block/virtio/device.rs`        (`VirtioBlock::activate`)
  * `src/virtio/src/block/virtio/queue_handler.rs` (`QueueHandler::process`)
  * `src/virtio/src/net/vhost/device.rs`           (`VhostNet::interrupt_status`)

Machine integers are modelled as `Nat` with explicit `% 2 ^ w` where overflow
matters.  Fallible operations return `Option` / `Except`.  Rust `&'static str`
tags that only discriminate cases (such as the `"write"` / `"read"` payload of
`InvalidMmioOperation`) are modelled as small enumerations.
-/

namespace BaoVirtio

/-- Decidable equality for `Except`, so that closed results of fallible
operations can be settled by `decide`. -/
instance {ε α : Type} [DecidableEq ε] [DecidableEq α] :
    DecidableEq (Except ε α) := fun a b =>
  match a, b with
  | Except.error e1, Except.error e2 =>
    decidable_of_iff (e1 = e2)
      ⟨fun h => congrArg Except.error h, fun h => Except.error.inj h⟩
  | Except.error _, Except.ok _ => isFalse (fun h => Except.noConfusion h)
  | Except.ok _, Except.error _ => isFalse (fun h => Except.noConfusion h)
  | Except.ok a1, Except.ok a2 =>
    decidable_of_iff (a1 = a2)
      ⟨fun h => congrArg Except.ok h, fun h => Except.ok.inj h⟩

/-! ## Machine-integer helpers -/

/-- `2 ^ 32`, the modulus of Rust `u32` arithmetic. -/
def U32_MOD : Nat := 2 ^ 32

/-- `2 ^ 64`, the modulus of Rust `u64` arithmetic. -/
def U64_MOD : Nat := 2 ^ 64

/-- Models Rust `(v as u32).to_le_bytes()`: the four little-endian bytes of
`v` truncated to 32 bits.  Each byte is extracted independently, so values
`≥ 2 ^ 32` are truncated exactly as the `as u32` cast does. -/
def u32ToLeBytes (v : Nat) : List Nat :=
  [v % 2 ^ 8, v / 2 ^ 8 % 2 ^ 8, v / 2 ^ 16 % 2 ^ 8, v / 2 ^ 24 % 2 ^ 8]

/-- Models Rust `u32::from_le_bytes` on a 4-byte buffer. -/
def u32FromLeBytes : List Nat → Nat
  | [b0, b1, b2, b3] => b0 + 2 ^ 8 * b1 + 2 ^ 16 * b2 + 2 ^ 24 * b3
  | _ => 0

/-! ## `src/api/src/defines.rs` -/

/-- Bao I/O Write Operation (`BAO_IO_WRITE`). -/
def BAO_IO_WRITE : Nat := 0x0
/-- Bao I/O Read Operation (`BAO_IO_READ`). -/
def BAO_IO_READ : Nat := 0x1
/-- Bao I/O Ask Operation (`BAO_IO_ASK`). -/
def BAO_IO_ASK : Nat := 0x2
/-- Bao I/O Notify Operation (`BAO_IO_NOTIFY`). -/
def BAO_IO_NOTIFY : Nat := 0x3

/-- Bao ioctl type byte (`BAO_IOCTL_TYPE = 0xA6`). -/
def BAO_IOCTL_TYPE : Nat := 0xA6

/-- `BAO_IOEVENTFD_FLAG_DATAMATCH = 1 << 1`. -/
def BAO_IOEVENTFD_FLAG_DATAMATCH : Nat := 1 <<< 1
/-- `BAO_IOEVENTFD_FLAG_DEASSIGN = 1 << 2`. -/
def BAO_IOEVENTFD_FLAG_DEASSIGN : Nat := 1 <<< 2
/-- `BAO_IRQFD_FLAG_ASSIGN = 0x00`. -/
def BAO_IRQFD_FLAG_ASSIGN : Nat := 0x00
/-- `BAO_IRQFD_FLAG_DEASSIGN = 0x01`. -/
def BAO_IRQFD_FLAG_DEASSIGN : Nat := 0x01

/-! ## `src/api/src/types.rs` -/

/-- `BaoIoRequest` (`src/api/src/types.rs`): the record traversing the
guest to host boundary.  All `u64` fields are `Nat`, the `i32` return code is
`Int`. -/
structure BaoIoRequest where
  virtio_id : Nat
  reg_off : Nat
  addr : Nat
  op : Nat
  value : Nat
  access_width : Nat
  cpu_id : Nat
  vcpu_id : Nat
  ret : Int
deriving DecidableEq, Repr

/-! ## MMIO bus (`vm_device::device_manager::IoManager`)

`Vm::run_io` dispatches through the `rust-vmm` `vm-device` crate's
`IoManager`: a collection of `(MmioRange, device)` pairs.  `mmio_read` /
`mmio_write` look up the device whose range contains the address and forward
`(addr - base, data)` to it; they fail with `DeviceNotFound` when no device
owns the address.  Device register behaviour is abstract here: a device is a
pure function from `(offset, buffer)` to the buffer it writes back on a read.
-/

/-- An MMIO range: `(base, size)`, sizes in bytes. -/
structure MmioRangeSt where
  base : Nat
  size : Nat
deriving DecidableEq, Repr

/-- Whether `addr` falls within the range (inclusive of the last byte). -/
def MmioRangeSt.containsAddr (r : MmioRangeSt) (addr : Nat) : Bool :=
  decide (r.base ≤ addr ∧ addr ≤ r.base + (r.size - 1))

/-- Abstract MMIO device endpoint: `readFn offset buf` is the buffer content
after the device serviced an `mmio_read` of `buf.length` bytes at `offset`. -/
structure MmioDeviceModel where
  readFn : Nat → List Nat → List Nat

/-- The `IoManager`: an ordered collection of `(range, device)` pairs. -/
structure IoManagerSt where
  devices : List (MmioRangeSt × MmioDeviceModel)

/-- Device lookup by contained address (first match; ranges are disjoint by
bus invariant). -/
def IoManagerSt.findDevice (m : IoManagerSt) (addr : Nat) :
    Option (MmioRangeSt × MmioDeviceModel) :=
  m.devices.find? (fun p => p.1.containsAddr addr)

/-- Whether some registered device owns `addr`. -/
def IoManagerSt.owns (m : IoManagerSt) (addr : Nat) : Bool :=
  (m.findDevice addr).isSome

/-- `IoManager::mmio_read`: dispatch to the owning device, `none` models the
`DeviceNotFound` bus error. -/
def IoManagerSt.mmioRead (m : IoManagerSt) (addr : Nat) (data : List Nat) :
    Option (List Nat) :=
  (m.findDevice addr).map (fun p => p.2.readFn (addr - p.1.base) data)

/-- `IoManager::mmio_write`: succeeds exactly when a device owns `addr`
(the device's write effect is internal to the device and not observed by the
dispatch loop). -/
def IoManagerSt.mmioWrite (m : IoManagerSt) (addr : Nat) (_data : List Nat) :
    Option Unit :=
  (m.findDevice addr).map (fun _ => ())

/-! ## `Vm::run_io` (`src/vmm/src/vm.rs`, lines 167-234) -/

/-- The `&'static str` payload of `Error::InvalidMmioOperation` (`"write"` or
`"read"`), modelled as an enumeration. -/
inductive MmioOpKind
  | write
  | read
deriving DecidableEq, Repr

/-- The subset of `api::error::Error` produced by the dispatch loop body. -/
inductive VmError
  | invalidMmioOperation (kind : MmioOpKind)
  | invalidIoReqDirection (op : Nat)
deriving DecidableEq, Repr

/-- The `println!` log lines emitted by `Vm::run_io`, as tags. -/
inductive LogEvent
  | invalidMmioWrite (req : BaoIoRequest)
  | invalidMmioRead (req : BaoIoRequest)
  | invalidDirection (op : Nat)
deriving DecidableEq, Repr

/-- A call made into the MMIO bus, with the address and buffer passed. -/
inductive BusOp
  | write (addr : Nat) (data : List Nat)
  | read (addr : Nat) (data : List Nat)
deriving DecidableEq, Repr

/-- Everything one iteration of the `Vm::run_io` loop body does with a fetched
request: the completions posted via `notify_io_completed`, the calls made into
the bus, the log lines, and the error (if any) with which `run_io` returns,
terminating the loop. -/
structure RunIoOutcome where
  completions : List BaoIoRequest
  busOps : List BusOp
  log : List LogEvent
  err : Option VmError
deriving DecidableEq, Repr

/-- One iteration of `Vm::run_io` (`src/vmm/src/vm.rs` lines 185-232) applied
to the request `req` fetched via `request_io`.  Mirrors the source: pack
`req.value` as the little-endian bytes of `req.value as u32`; on `BAO_IO_WRITE`
call `mmio_write` at `req.addr` (on bus error: log and return
`InvalidMmioOperation("write")`); on `BAO_IO_READ` call `mmio_read` (on bus
error: log and return `InvalidMmioOperation("read")`); on any other op log and
return `InvalidIoReqDirection(op)`; otherwise store `u32::from_le_bytes(data)
as u64` back into `req.value` and post the completion.  (`notify_io_completed`
itself is the hypervisor ioctl and is modelled as accepting the completion.) -/
def runIoStep (mgr : IoManagerSt) (req : BaoIoRequest) : RunIoOutcome :=
  let data := u32ToLeBytes req.value
  if req.op = BAO_IO_WRITE then
    match mgr.mmioWrite req.addr data with
    | some _ =>
      let req1 := { req with value := u32FromLeBytes data }
      { completions := [req1], busOps := [BusOp.write req.addr data],
        log := [], err := none }
    | none =>
      { completions := [], busOps := [BusOp.write req.addr data],
        log := [LogEvent.invalidMmioWrite req],
        err := some (VmError.invalidMmioOperation MmioOpKind.write) }
  else if req.op = BAO_IO_READ then
    match mgr.mmioRead req.addr data with
    | some data1 =>
      let req1 := { req with value := u32FromLeBytes data1 }
      { completions := [req1], busOps := [BusOp.read req.addr data],
        log := [], err := none }
    | none =>
      { completions := [], busOps := [BusOp.read req.addr data],
        log := [LogEvent.invalidMmioRead req],
        err := some (VmError.invalidMmioOperation MmioOpKind.read) }
  else
    { completions := [], busOps := [], log := [LogEvent.invalidDirection req.op],
      err := some (VmError.invalidIoReqDirection req.op) }

/-! ## Concrete fixtures for closed theorems -/

/-- A bus with no registered device. -/
def emptyIoManager : IoManagerSt := { devices := [] }

/-- A pass-through scratch device: reads return the buffer unchanged. -/
def scratchDevice : MmioDeviceModel := { readFn := fun _ data => data }

/-- A bus with one device owning `(0x1000, 0x200)`. -/
def oneDeviceManager : IoManagerSt :=
  { devices := [({ base := 0x1000, size := 0x200 }, scratchDevice)] }

/-- A fetched WRITE request at an address no device owns. -/
def strayWriteReq : BaoIoRequest :=
  { virtio_id := 3, reg_off := 0x50, addr := 0x9000, op := BAO_IO_WRITE,
    value := 5, access_width := 4, cpu_id := 1, vcpu_id := 0, ret := 0 }

/-- A fetched request whose op is `BAO_IO_ASK` (neither WRITE nor READ). -/
def askReq : BaoIoRequest :=
  { virtio_id := 3, reg_off := 0, addr := 0x1000, op := BAO_IO_ASK,
    value := 0, access_width := 4, cpu_id := 0, vcpu_id := 0, ret := 0 }

/-- A WRITE request to the one-device bus. -/
def okWriteReq : BaoIoRequest :=
  { virtio_id := 3, reg_off := 0x14, addr := 0x1014, op := BAO_IO_WRITE,
    value := 0xCAFE, access_width := 4, cpu_id := 1, vcpu_id := 2, ret := 0 }

/-- A READ request to the one-device bus. -/
def okReadReq : BaoIoRequest :=
  { virtio_id := 3, reg_off := 0x10, addr := 0x1010, op := BAO_IO_READ,
    value := 0xAB, access_width := 4, cpu_id := 1, vcpu_id := 2, ret := 0 }

/-! ## `src/virtio/src/mmio.rs` constants -/

/-- Offset of the QueueNotify register (`VIRTIO_MMIO_QUEUE_NOTIFY`), `0x50`. -/
def VIRTIO_MMIO_QUEUE_NOTIFY_OFFSET : Nat := 0x50

/-- Used Buffer Notification bit of the interrupt status byte. -/
def VIRTIO_MMIO_INT_VRING : Nat := 0x01

/-- Configuration Change Notification bit of the interrupt status byte. -/
def VIRTIO_MMIO_INT_CONFIG : Nat := 0x02

/-- `VIRTIO_F_VERSION_1` feature bit number (from `virtio_bindings`), 32. -/
def VIRTIO_F_VERSION_1 : Nat := 32

/-! ## Device state (`virtio_device::VirtioConfig` and
`src/virtio/src/device.rs`) -/

/-- A Virtqueue, reduced to the fields `prepare_activate` can observe
(the loop only enumerates the queues). -/
structure QueueSt where
  size : Nat
  ready : Bool
deriving DecidableEq, Repr

/-- The per-device register state (`virtio_device::VirtioConfig`). -/
structure VirtioConfigSt where
  device_features : Nat
  driver_features : Nat
  device_status : Nat
  interrupt_status : Nat
  queues : List QueueSt
  device_activated : Bool
deriving DecidableEq, Repr

/-- `MmioConfig` (`src/virtio/src/mmio.rs`): the device's MMIO range and
interrupt number. -/
structure MmioConfigSt where
  range : MmioRangeSt
  gsi : Nat
deriving DecidableEq, Repr

/-- The state of `VirtioDeviceCommon` relevant to activation. -/
structure VirtioDeviceCommonSt where
  config : VirtioConfigSt
  mmio : MmioConfigSt
deriving DecidableEq, Repr

/-- The activation errors of `api::error::Error` raised by
`prepare_activate`. -/
inductive DeviceError
  | deviceAlreadyActivated
  | deviceBadFeatures (driver_features : Nat)
deriving DecidableEq, Repr

/-- `BaoIoEventFd` (`src/api/src/types.rs`): the payload of the
`BAO_IOCTL_IOEVENTFD` ioctl. -/
structure BaoIoEventFd where
  fd : Nat
  flags : Nat
  addr : Nat
  len : Nat
  reserved : Nat
  data : Nat
deriving DecidableEq, Repr

/-- An `EventFd`; `nonblocking` records whether it was created with
`EFD_NONBLOCK`.  The numeric `id` stands for the OS-assigned descriptor; we
number eventfds by creation order. -/
structure EventFdSt where
  id : Nat
  nonblocking : Bool
deriving DecidableEq, Repr

/-- `BaoDeviceModel::register_ioeventfd` (`src/api/src/device_model.rs` lines
184-210): the `BaoIoEventFd` struct it builds and passes to the
`BAO_IOCTL_IOEVENTFD` ioctl; `len` is fixed at 4 and `reserved` at 0. -/
def register_ioeventfd (kick flags addr datamatch : Nat) : BaoIoEventFd :=
  { fd := kick, flags := flags, addr := addr, len := 4, reserved := 0,
    data := datamatch }

/-- The body of the per-queue loop in `prepare_activate`: create a new
non-blocking `EventFd` for queue index `iq.1`, register it at the QueueNotify
address with DATAMATCH on the queue index, and push both. -/
def prepareActivateStep (notifyAddr : Nat)
    (acc : List EventFdSt × List BaoIoEventFd) (iq : Nat × QueueSt) :
    List EventFdSt × List BaoIoEventFd :=
  let fd : EventFdSt := { id := iq.1, nonblocking := true }
  let reg := register_ioeventfd fd.id BAO_IOEVENTFD_FLAG_DATAMATCH notifyAddr
    iq.1
  (acc.1 ++ [fd], acc.2 ++ [reg])

/-- `VirtioDeviceCommon::prepare_activate` (`src/virtio/src/device.rs` lines
142-181).  Returns the result (the ioeventfds handed to the concrete device,
or the error) together with the list of `BaoIoEventFd` registrations actually
issued to the hypervisor, in order. -/
def prepare_activate (d : VirtioDeviceCommonSt) :
    Except DeviceError (List EventFdSt) × List BaoIoEventFd :=
  if d.config.device_activated then
    (Except.error DeviceError.deviceAlreadyActivated, [])
  else if d.config.driver_features &&& (1 <<< VIRTIO_F_VERSION_1) = 0 then
    (Except.error (DeviceError.deviceBadFeatures d.config.driver_features), [])
  else
    let r := d.config.queues.enum.foldl
      (prepareActivateStep (d.mmio.range.base + VIRTIO_MMIO_QUEUE_NOTIFY_OFFSET))
      ([], [])
    (Except.ok r.1, r.2)

/-- Outcome of `VirtioBlock::activate`: either the updated device state, or a
Rust panic (an `unwrap` on an `Err`), which aborts instead of returning. -/
inductive ActivateOutcome
  | ok (d : VirtioDeviceCommonSt)
  | panicked (e : DeviceError)
deriving DecidableEq, Repr

/-- `VirtioBlock::activate` (`src/virtio/src/block/virtio/device.rs` lines
145-184), control-flow embedding.  The backing-file open and `StdIoBackend`
construction that precede `prepare_activate` are modelled as succeeding (the
claims concern the activation state, not block I/O).  The source calls
`self.common.prepare_activate().unwrap()`: an `Err` therefore panics rather
than being returned.  On success the handler takes `queues.remove(0)` and
`finalize_activate` sets `device_activated`. -/
def virtioBlockActivate (d : VirtioDeviceCommonSt) : ActivateOutcome :=
  match prepare_activate d with
  | (Except.error e, _) => ActivateOutcome.panicked e
  | (Except.ok _ioevents, _) =>
    ActivateOutcome.ok
      { d with config :=
          { d.config with
            queues := List.tail d.config.queues,
            device_activated := true } }

/-- The Virtio `FAILED` device-status bit. -/
def DEVICE_STATUS_FAILED : Nat := 128

/-! ## Claim C3 -/

/-- A device state that is already activated and whose driver-feature word
lacks `VERSION_1` (it is 0). -/
def activatedBadFeaturesDevice : VirtioDeviceCommonSt :=
  { config :=
      { device_features := 1 <<< 32, driver_features := 0,
        device_status := 0xF, interrupt_status := 0,
        queues := [{ size := 256, ready := true }], device_activated := true },
    mmio := { range := { base := 0x1000, size := 0x200 }, gsi := 0x2F } }

/-- A device state that is not activated and whose driver-feature word lacks
`VERSION_1`. -/
def legacyDriverDevice : VirtioDeviceCommonSt :=
  { config :=
      { device_features := 1 <<< 32, driver_features := 0x30000000,
        device_status := 0xB, interrupt_status := 0,
        queues := [{ size := 256, ready := true }], device_activated := false },
    mmio := { range := { base := 0x1000, size := 0x200 }, gsi := 0x2F } }

/-! ## Claim C4 -/

/-- A block device state that has already been activated (status has
`ACK|DRIVER|FEATURES_OK|DRIVER_OK`, `VERSION_1` negotiated). -/
def activatedBlockDevice : VirtioDeviceCommonSt :=
  { config :=
      { device_features := 1 <<< 32, driver_features := 1 <<< 32,
        device_status := 0xF, interrupt_status := 0,
        queues := [{ size := 256, ready := true }], device_activated := true },
    mmio := { range := { base := 0x1000, size := 0x200 }, gsi := 0x2F } }

/-- A block-like device with two queues, ready to activate
(`VERSION_1` negotiated, not yet activated). -/
def twoQueueDevice : VirtioDeviceCommonSt :=
  { config :=
      { device_features := 1 <<< 32, driver_features := 1 <<< 32,
        device_status := 0xF, interrupt_status := 0,
        queues := [{ size := 1024, ready := true },
                   { size := 1024, ready := true }],
        device_activated := false },
    mmio := { range := { base := 0xA003E00, size := 0x200 }, gsi := 0x2F } }

/-! ## `src/api/src/ioctl.rs` (Claim C6) -/

/-- `_IOC_NONE` (`vmm_sys_util::ioctl`). -/
def IOC_NONE : Nat := 0
/-- `_IOC_WRITE` (`vmm_sys_util::ioctl`). -/
def IOC_WRITE : Nat := 1
/-- `_IOC_READ` (`vmm_sys_util::ioctl`). -/
def IOC_READ : Nat := 2

/-- The `ioctl_ioc_nr!` request-code computation (`vmm_sys_util::ioctl`,
Linux convention): `(dir << 30) | (size << 16) | (ty << 8) | nr`. -/
def ioctlCode (dir ty nr size : Nat) : Nat :=
  (dir <<< 30) ||| (size <<< 16) ||| (ty <<< 8) ||| nr

/-- Round `off` up to a multiple of the alignment `a`. -/
def alignUp (off a : Nat) : Nat := (off + a - 1) / a * a

/-- Size of a `repr(C)` struct from the `(size, align)` of each field in
declaration order: each field is placed at the next offset aligned for it,
and the total is rounded up to the struct alignment (the maximum field
alignment). -/
def reprCSize (fields : List (Nat × Nat)) : Nat :=
  let fin := fields.foldl
    (fun acc f => (alignUp acc.1 f.2 + f.1, max acc.2 f.2)) (0, 1)
  alignUp fin.1 fin.2

/-- `size_of::<u32>()`. -/
def sizeOfU32 : Nat := 4

/-- `size_of::<BaoIoRequest>()`: eight `u64` fields followed by one `i32`,
`repr(C)` (`src/api/src/types.rs` lines 25-37). -/
def sizeOfBaoIoRequest : Nat :=
  reprCSize [(8, 8), (8, 8), (8, 8), (8, 8), (8, 8), (8, 8), (8, 8), (8, 8),
    (4, 4)]

/-- `size_of::<BaoIoEventFd>()`: `u32, u32, u64, u32, u32, u64`, `repr(C)`
(`src/api/src/types.rs` lines 49-57). -/
def sizeOfBaoIoEventFd : Nat :=
  reprCSize [(4, 4), (4, 4), (8, 8), (4, 4), (4, 4), (8, 8)]

/-- `size_of::<BaoIrqFd>()`: `i32, u32`, `repr(C)`. -/
def sizeOfBaoIrqFd : Nat := reprCSize [(4, 4), (4, 4)]

/-- `BAO_IOCTL_VM_VIRTIO_BACKEND_CREATE`: write, nr 1, `u32` payload. -/
def BAO_IOCTL_VM_VIRTIO_BACKEND_CREATE : Nat :=
  ioctlCode IOC_WRITE BAO_IOCTL_TYPE 1 sizeOfU32
/-- `BAO_IOCTL_VM_VIRTIO_BACKEND_DESTROY`: write, nr 2, `u32` payload. -/
def BAO_IOCTL_VM_VIRTIO_BACKEND_DESTROY : Nat :=
  ioctlCode IOC_WRITE BAO_IOCTL_TYPE 2 sizeOfU32
/-- `BAO_IOCTL_IO_CREATE_CLIENT`: no direction, nr 3, no payload. -/
def BAO_IOCTL_IO_CREATE_CLIENT : Nat := ioctlCode IOC_NONE BAO_IOCTL_TYPE 3 0
/-- `BAO_IOCTL_IO_DESTROY_CLIENT`: no direction, nr 4, no payload. -/
def BAO_IOCTL_IO_DESTROY_CLIENT : Nat := ioctlCode IOC_NONE BAO_IOCTL_TYPE 4 0
/-- `BAO_IOCTL_IO_ATTACH_CLIENT`: no direction, nr 5, no payload. -/
def BAO_IOCTL_IO_ATTACH_CLIENT : Nat := ioctlCode IOC_NONE BAO_IOCTL_TYPE 5 0
/-- `BAO_IOCTL_IO_REQUEST`: read + write, nr 6, `BaoIoRequest` payload. -/
def BAO_IOCTL_IO_REQUEST : Nat :=
  ioctlCode (IOC_WRITE ||| IOC_READ) BAO_IOCTL_TYPE 6 sizeOfBaoIoRequest
/-- `BAO_IOCTL_IO_REQUEST_NOTIFY_COMPLETED`: write, nr 7, `BaoIoRequest`. -/
def BAO_IOCTL_IO_REQUEST_NOTIFY_COMPLETED : Nat :=
  ioctlCode IOC_WRITE BAO_IOCTL_TYPE 7 sizeOfBaoIoRequest
/-- `BAO_IOCTL_IO_NOTIFY_GUEST`: no direction, nr 8, no payload. -/
def BAO_IOCTL_IO_NOTIFY_GUEST : Nat := ioctlCode IOC_NONE BAO_IOCTL_TYPE 8 0
/-- `BAO_IOCTL_IOEVENTFD`: write, nr 9, `BaoIoEventFd` payload. -/
def BAO_IOCTL_IOEVENTFD : Nat :=
  ioctlCode IOC_WRITE BAO_IOCTL_TYPE 9 sizeOfBaoIoEventFd
/-- `BAO_IOCTL_IRQFD`: write, nr 10, `BaoIrqFd` payload. -/
def BAO_IOCTL_IRQFD : Nat := ioctlCode IOC_WRITE BAO_IOCTL_TYPE 10 sizeOfBaoIrqFd

/-! ## `src/virtio/src/block/virtio/queue_handler.rs` (Claim C7) -/

/-- `EventSet::IN` (EPOLLIN) as a bitmask. -/
def EVENT_SET_IN : Nat := 1

/-- The handler's expected event datum (`IOEVENT_DATA = 0`). -/
def IOEVENT_DATA : Nat := 0

/-- A readiness event delivered to a subscriber: the source fd, the ready
event set and the subscriber-local datum. -/
structure EventsSt where
  fd : Nat
  eventSet : Nat
  data : Nat
deriving DecidableEq, Repr

/-- A file-descriptor interest registered in the event loop's `EventOps`. -/
structure InterestSt where
  fd : Nat
  data : Nat
deriving DecidableEq, Repr

/-- `ops.remove(events)`: unregister the interests for the file descriptor
the events were delivered on; interests on other descriptors are kept. -/
def opsRemove (ops : List InterestSt) (ev : EventsSt) : List InterestSt :=
  ops.filter (fun it => it.fd != ev.fd)

/-- Result of `QueueHandler::process`: the remaining interests and whether
the error path ran. -/
structure ProcessOutcome where
  ops : List InterestSt
  error : Bool
deriving DecidableEq, Repr

/-- `QueueHandler::process` for the block device
(`src/virtio/src/block/virtio/queue_handler.rs` lines 22-43).  `readOk` is
whether `self.ioeventfd.read()` succeeded and `queueOk` whether
`self.inner.process_queue()` succeeded.  Mirrors the if-else chain computing
`error` and the final `if error { ops.remove(events) }`. -/
def queueHandlerProcess (ev : EventsSt) (readOk queueOk : Bool)
    (ops : List InterestSt) : ProcessOutcome :=
  let error :=
    if ev.eventSet ≠ EVENT_SET_IN then true
    else if ev.data ≠ IOEVENT_DATA then true
    else if !readOk then true
    else if !queueOk then true
    else false
  if error then { ops := opsRemove ops ev, error := true }
  else { ops := ops, error := false }

/-! ## `SingleFdSignalQueue::signal_used_queue` (Claim C8) -/

/-- The primitive effects `signal_used_queue` can perform. -/
inductive SigOp
  | fetchOr (bits : Nat)
  | irqWrite (v : Nat)
deriving DecidableEq, Repr

/-- The state those effects act on: the shared `InterruptStatus` byte and the
values written to the irqfd so far. -/
structure SigState where
  status : Nat
  irqWrites : List Nat
deriving DecidableEq, Repr

/-- Effect of one primitive operation. -/
def SigOp.applyOp (s : SigState) : SigOp → SigState
  | SigOp.fetchOr bits => { s with status := s.status ||| bits }
  | SigOp.irqWrite v => { s with irqWrites := s.irqWrites ++ [v] }

/-- `SingleFdSignalQueue::signal_used_queue` (`src/virtio/src/device.rs`
lines 380-389) as its sequence of effects in program order:
`interrupt_status.fetch_or(VIRTIO_MMIO_INT_VRING, SeqCst)` followed by
`irqfd.write(1)` (the queue index argument is unused). -/
def signalUsedQueueOps : List SigOp :=
  [SigOp.fetchOr VIRTIO_MMIO_INT_VRING, SigOp.irqWrite 1]

/-- The execution trace of an operation list from state `s`: the list of
`(state in which the op executes, op)` pairs. -/
def execTrace (s : SigState) : List SigOp → List (SigState × SigOp)
  | [] => []
  | op :: ops => (s, op) :: execTrace (SigOp.applyOp s op) ops

/-- The state after executing an operation list. -/
def execState (s : SigState) (ops : List SigOp) : SigState :=
  ops.foldl SigOp.applyOp s

/-! ## `VhostNet::interrupt_status` (Claim C9) -/

/-- `VhostNet::interrupt_status` (`src/virtio/src/net/vhost/device.rs` lines
251-258): it performs `interrupt_status.fetch_or(VIRTIO_MMIO_INT_VRING,
SeqCst)` on the shared byte and then returns the (reference to the) byte.
The pair is `(new shared value, value observed by the caller's load)`. -/
def vhostNetInterruptStatus (status : Nat) : Nat × Nat :=
  let status1 := status ||| VIRTIO_MMIO_INT_VRING
  (status1, status1)

/-! ## `MmioConfig::new` / `MmioConfig::next` (Claim C10) -/

/-- The error of `vm_device::bus::BusRange::new`. -/
inductive BusRangeError
  | invalidRange
deriving DecidableEq, Repr

/-- `vm_device::bus::BusRange::new` (the `rust-vmm` `vm-device` crate), of
which `MmioRange = BusRange<MmioAddress>`: a zero-sized range is refused, and
`base.checked_add(size - 1)` — the last address of the range — must not
overflow `u64`. -/
def mmioRangeNew (base size : Nat) : Except BusRangeError MmioRangeSt :=
  if size = 0 then Except.error BusRangeError.invalidRange
  else if base + (size - 1) ≥ 2 ^ 64 then
    Except.error BusRangeError.invalidRange
  else Except.ok { base := base, size := size }

/-- `virtio::mmio::Error`: a wrapped bus error, or `Overflow`. -/
inductive MmioConfigError
  | bus (e : BusRangeError)
  | overflow
deriving DecidableEq, Repr

/-- `MmioConfig::new` (`src/virtio/src/mmio.rs` lines 48-52). -/
def mmioConfigNew (base size gsi : Nat) : Except MmioConfigError MmioConfigSt :=
  match mmioRangeNew base size with
  | Except.error e => Except.error (MmioConfigError.bus e)
  | Except.ok range => Except.ok { range := range, gsi := gsi }

/-- `MmioConfig::next` (`src/virtio/src/mmio.rs` lines 59-67):
`base.checked_add(size)` (u64) or the `Overflow` error, then
`MmioConfig::new(base + size, size, gsi + 1)`.  The `u32` increment of `gsi`
is taken modulo `2 ^ 32` (release-mode wrapping). -/
def mmioConfigNext (c : MmioConfigSt) : Except MmioConfigError MmioConfigSt :=
  if c.range.base + c.range.size ≥ 2 ^ 64 then
    Except.error MmioConfigError.overflow
  else
    mmioConfigNew (c.range.base + c.range.size) c.range.size
      ((c.gsi + 1) % 2 ^ 32)

/-- A valid `MmioConfig` near the top of the address space: its range fits in
`u64` and the base addition of `next` does not overflow, but the range that
`next` would create ends past `2 ^ 64 - 1`. -/
def edgeMmioConfig : MmioConfigSt :=
  { range := { base := 2 ^ 64 - 0x300, size := 0x200 }, gsi := 0x2F }

/-! ## Theorems -/

theorem u32FromLeBytes_u32ToLeBytes (v : Nat) :
    u32FromLeBytes (u32ToLeBytes v) = v % 2 ^ 32 := by
  simp only [u32ToLeBytes, u32FromLeBytes]
  omega

/-! ## Claim C1 -/

/-- Claim C1, counterexample.  The claim asserts that exactly one completion is
issued per fetched request.  For the fetched WRITE request `strayWriteReq`
(whose address no device owns) the loop body packs the value and passes it to
`mmio_write` as claimed, but issues zero completions: it returns
`InvalidMmioOperation` from `run_io` without calling `notify_io_completed`. -/
theorem c1_counterexample :
    (runIoStep emptyIoManager strayWriteReq).completions = [] ∧
    (runIoStep emptyIoManager strayWriteReq).busOps =
      [BusOp.write 0x9000 (u32ToLeBytes 5)] ∧
    (runIoStep emptyIoManager strayWriteReq).err =
      some (VmError.invalidMmioOperation MmioOpKind.write) := by
  decide

/-- Claim C1 (amended): for every fetched request whose op is WRITE or READ and
whose address some device on the bus owns, the loop packs `req.value` as a
4-byte little-endian buffer and passes it to `mmio_write` (resp. `mmio_read`,
unpacking the bytes back into `req.value` little-endian), and it issues exactly
one completion, namely the same request record (identification fields
`virtio_id`, `cpu_id`, `vcpu_id` unchanged, only `value` updated).  Fetched
requests whose dispatch fails are not completed (see C2). -/
theorem c1_dispatch_roundtrip (mgr : IoManagerSt) (req : BaoIoRequest)
    (hown : mgr.owns req.addr = true) :
    (req.op = BAO_IO_WRITE →
      runIoStep mgr req =
        { completions := [{ req with value := req.value % 2 ^ 32 }],
          busOps := [BusOp.write req.addr (u32ToLeBytes req.value)],
          log := [], err := none }) ∧
    (req.op = BAO_IO_READ →
      ∃ res, mgr.mmioRead req.addr (u32ToLeBytes req.value) = some res ∧
        runIoStep mgr req =
          { completions := [{ req with value := u32FromLeBytes res }],
            busOps := [BusOp.read req.addr (u32ToLeBytes req.value)],
            log := [], err := none }) := by
  rcases hdev : mgr.findDevice req.addr with _ | dev
  · rw [IoManagerSt.owns, hdev] at hown
    simp at hown
  · constructor
    · intro hop
      simp [runIoStep, hop, IoManagerSt.mmioWrite, hdev,
        u32FromLeBytes_u32ToLeBytes, BAO_IO_WRITE, BAO_IO_READ]
    · intro hop
      refine ⟨dev.2.readFn (req.addr - dev.1.base) (u32ToLeBytes req.value),
        ?_, ?_⟩
      · rw [IoManagerSt.mmioRead, hdev]
        rfl
      · simp [runIoStep, hop, IoManagerSt.mmioRead, hdev,
          BAO_IO_WRITE, BAO_IO_READ]

/-- Claim C1 witness: the amended theorem applied to the one-device fixture,
on both a WRITE and a READ request. -/
theorem c1_dispatch_roundtrip_witness :
    (oneDeviceManager.owns okWriteReq.addr = true ∧
      runIoStep oneDeviceManager okWriteReq =
        { completions := [{ okWriteReq with value := 0xCAFE % 2 ^ 32 }],
          busOps := [BusOp.write 0x1014 (u32ToLeBytes 0xCAFE)],
          log := [], err := none }) ∧
    (oneDeviceManager.owns okReadReq.addr = true ∧
      ∃ res, oneDeviceManager.mmioRead okReadReq.addr (u32ToLeBytes 0xAB) =
          some res ∧
        runIoStep oneDeviceManager okReadReq =
          { completions := [{ okReadReq with value := u32FromLeBytes res }],
            busOps := [BusOp.read 0x1010 (u32ToLeBytes 0xAB)],
            log := [], err := none }) := by
  refine ⟨⟨by decide, ?_⟩, ⟨by decide, ?_⟩⟩
  · exact (c1_dispatch_roundtrip oneDeviceManager okWriteReq (by decide)).1 rfl
  · exact (c1_dispatch_roundtrip oneDeviceManager okReadReq (by decide)).2 rfl

/-! ## Claim C2 -/

/-- Claim C2, counterexample.  The claim asserts that a fetched request whose
op is neither WRITE nor READ is still completed via `notify_io_completed` with
a non-zero `ret`.  For the fetched `BAO_IO_ASK` request the loop body logs the
error but issues no completion at all: it returns `InvalidIoReqDirection`
from `run_io`, abandoning the request. -/
theorem c2_counterexample :
    (runIoStep emptyIoManager askReq).completions = [] ∧
    (runIoStep emptyIoManager askReq).log = [LogEvent.invalidDirection 2] ∧
    (runIoStep emptyIoManager askReq).err =
      some (VmError.invalidIoReqDirection 2) := by
  decide

/-- Claim C2 (amended): for every fetched request whose op is neither WRITE nor
READ, and for every WRITE/READ whose address no device on the bus owns, the
dispatch loop logs the error and returns it from `run_io` (errors
`InvalidIoReqDirection` and `InvalidMmioOperation` respectively), terminating
the dispatch loop without completing the request: no `notify_io_completed` is
issued for it. -/
theorem c2_dispatch_errors (mgr : IoManagerSt) (req : BaoIoRequest) :
    (req.op ≠ BAO_IO_WRITE → req.op ≠ BAO_IO_READ →
      runIoStep mgr req =
        { completions := [], busOps := [],
          log := [LogEvent.invalidDirection req.op],
          err := some (VmError.invalidIoReqDirection req.op) }) ∧
    (req.op = BAO_IO_WRITE → mgr.owns req.addr = false →
      runIoStep mgr req =
        { completions := [],
          busOps := [BusOp.write req.addr (u32ToLeBytes req.value)],
          log := [LogEvent.invalidMmioWrite req],
          err := some (VmError.invalidMmioOperation MmioOpKind.write) }) ∧
    (req.op = BAO_IO_READ → mgr.owns req.addr = false →
      runIoStep mgr req =
        { completions := [],
          busOps := [BusOp.read req.addr (u32ToLeBytes req.value)],
          log := [LogEvent.invalidMmioRead req],
          err := some (VmError.invalidMmioOperation MmioOpKind.read) }) := by
  refine ⟨fun hw hr => ?_, fun hop hown => ?_, fun hop hown => ?_⟩
  · simp only [runIoStep, if_neg hw, if_neg hr]
  · rcases hdev : mgr.findDevice req.addr with _ | dev
    · simp [runIoStep, hop, IoManagerSt.mmioWrite, hdev,
        BAO_IO_WRITE, BAO_IO_READ]
    · rw [IoManagerSt.owns, hdev] at hown
      simp at hown
  · rcases hdev : mgr.findDevice req.addr with _ | dev
    · simp [runIoStep, hop, IoManagerSt.mmioRead, hdev,
        BAO_IO_WRITE, BAO_IO_READ]
    · rw [IoManagerSt.owns, hdev] at hown
      simp at hown

/-- Claim C2 witness: the amended theorem applied at concrete requests for all
three error paths. -/
theorem c2_dispatch_errors_witness :
    (runIoStep emptyIoManager askReq =
      { completions := [], busOps := [],
        log := [LogEvent.invalidDirection askReq.op],
        err := some (VmError.invalidIoReqDirection askReq.op) }) ∧
    (runIoStep emptyIoManager strayWriteReq =
      { completions := [],
        busOps := [BusOp.write strayWriteReq.addr
          (u32ToLeBytes strayWriteReq.value)],
        log := [LogEvent.invalidMmioWrite strayWriteReq],
        err := some (VmError.invalidMmioOperation MmioOpKind.write) }) := by
  refine ⟨?_, ?_⟩
  · exact (c2_dispatch_errors emptyIoManager askReq).1 (by decide) (by decide)
  · exact (c2_dispatch_errors emptyIoManager strayWriteReq).2.1 rfl (by decide)

/-- Claim C3, counterexample.  The claim quantifies over every device state
whose driver-feature word lacks `VERSION_1`.  On the state
`activatedBadFeaturesDevice` (already activated, driver features 0)
`prepare_activate` fails with `DeviceAlreadyActivated`, not with
`DeviceBadFeatures 0`: the activation check precedes the feature check.
No ioeventfd is registered, as the claim says. -/
theorem c3_counterexample :
    (prepare_activate activatedBadFeaturesDevice).1 =
      Except.error DeviceError.deviceAlreadyActivated ∧
    (prepare_activate activatedBadFeaturesDevice).1 ≠
      Except.error (DeviceError.deviceBadFeatures 0) ∧
    (prepare_activate activatedBadFeaturesDevice).2 = [] := by
  refine ⟨rfl, ?_, rfl⟩
  intro h
  simp [prepare_activate, activatedBadFeaturesDevice] at h

/-- Claim C3 (amended): for every device state that is not already activated
and whose negotiated driver-feature word lacks the `VERSION_1` bit,
`prepare_activate` fails with `DeviceBadFeatures` carrying the driver-feature
word, and no ioeventfd is created or registered. -/
theorem c3_bad_features (d : VirtioDeviceCommonSt)
    (hact : d.config.device_activated = false)
    (hfeat : d.config.driver_features &&& (1 <<< VIRTIO_F_VERSION_1) = 0) :
    prepare_activate d =
      (Except.error (DeviceError.deviceBadFeatures d.config.driver_features),
        []) := by
  simp [prepare_activate, hact, hfeat]

/-- Claim C3 witness: the amended theorem applied to `legacyDriverDevice`. -/
theorem c3_bad_features_witness :
    prepare_activate legacyDriverDevice =
      (Except.error (DeviceError.deviceBadFeatures 0x30000000), []) := by
  exact c3_bad_features legacyDriverDevice (by decide) (by decide)

/-- Claim C4, counterexample.  On the already-activated device the second
activation attempt does fail with `DeviceAlreadyActivated` inside
`prepare_activate`, but `VirtioBlock::activate` calls
`prepare_activate().unwrap()`: the error makes it panic (abort) instead of
being returned, so no transition of the device status to FAILED is ever
performed — contradicting the claim that the failure is reported to the guest
via FAILED rather than by aborting. -/
theorem c4_counterexample :
    virtioBlockActivate activatedBlockDevice =
      ActivateOutcome.panicked DeviceError.deviceAlreadyActivated := by
  decide

/-- Claim C4 (amended): for every device state whose `device_activated` flag is
already true, a second activation attempt fails with `DeviceAlreadyActivated`
inside `prepare_activate`, but `VirtioBlock::activate` unwraps that error and
panics, so the failure aborts the activation path and the device status is
never transitioned to FAILED by this code. -/
theorem c4_double_activation (d : VirtioDeviceCommonSt)
    (h : d.config.device_activated = true) :
    prepare_activate d =
      (Except.error DeviceError.deviceAlreadyActivated, []) ∧
    virtioBlockActivate d =
      ActivateOutcome.panicked DeviceError.deviceAlreadyActivated := by
  have hp : prepare_activate d =
      (Except.error DeviceError.deviceAlreadyActivated, []) := by
    simp [prepare_activate, h]
  exact ⟨hp, by rw [virtioBlockActivate, hp]⟩

/-- Claim C4 witness: the amended theorem applied to `activatedBlockDevice`. -/
theorem c4_double_activation_witness :
    prepare_activate activatedBlockDevice =
      (Except.error DeviceError.deviceAlreadyActivated, []) ∧
    virtioBlockActivate activatedBlockDevice =
      ActivateOutcome.panicked DeviceError.deviceAlreadyActivated := by
  exact c4_double_activation activatedBlockDevice (by decide)

/-! ## Claim C5 -/

/-- Unrolling the `prepare_activate` per-queue loop: folding the step over the
enumerated queues appends, in queue order, one eventfd and one registration
per queue, with the queue index as eventfd id and datamatch value. -/
theorem prepareActivate_foldl (addr : Nat) (qs : List QueueSt) :
    ∀ (n : Nat) (fds : List EventFdSt) (regs : List BaoIoEventFd),
    (List.enumFrom n qs).foldl (prepareActivateStep addr) (fds, regs) =
      (fds ++ (List.range' n qs.length).map
        (fun i => { id := i, nonblocking := true }),
       regs ++ (List.range' n qs.length).map
        (fun i => register_ioeventfd i BAO_IOEVENTFD_FLAG_DATAMATCH addr i)) := by
  induction qs with
  | nil =>
    intro n fds regs
    simp [List.range']
  | cons q qs ih =>
    intro n fds regs
    have h1 : prepareActivateStep addr (fds, regs) (n, q) =
        (fds ++ [{ id := n, nonblocking := true }],
         regs ++ [register_ioeventfd n BAO_IOEVENTFD_FLAG_DATAMATCH addr n]) :=
      rfl
    rw [List.enumFrom_cons, List.foldl_cons, h1, ih]
    simp [List.range'_succ]

/-- The full result of a successful `prepare_activate`, in closed form. -/
theorem prepare_activate_ok (d : VirtioDeviceCommonSt)
    (hact : d.config.device_activated = false)
    (hfeat : d.config.driver_features &&& (1 <<< VIRTIO_F_VERSION_1) ≠ 0) :
    prepare_activate d =
      (Except.ok ((List.range' 0 d.config.queues.length).map
        (fun i => { id := i, nonblocking := true })),
       (List.range' 0 d.config.queues.length).map
        (fun i => register_ioeventfd i BAO_IOEVENTFD_FLAG_DATAMATCH
          (d.mmio.range.base + VIRTIO_MMIO_QUEUE_NOTIFY_OFFSET) i)) := by
  rw [prepare_activate, if_neg (by simp [hact]), if_neg hfeat]
  show (let r := (List.enumFrom 0 d.config.queues).foldl _ ([], []);
    (Except.ok r.1, r.2)) = _
  rw [prepareActivate_foldl]
  simp

/-- Claim C5: during activation preparation on a device that passes the
activation checks, for each queue index `i` exactly one non-blocking
ioeventfd is created and one hypervisor registration is issued, carrying that
eventfd, the DATAMATCH flag, address `mmio_base + QueueNotify offset (0x50)`,
length 4 and datamatch value `i`; the returned ioeventfd list is in queue
order (the `i`-th returned eventfd is the one registered for queue `i`). -/
theorem c5_ioeventfd_per_queue (d : VirtioDeviceCommonSt)
    (hact : d.config.device_activated = false)
    (hfeat : d.config.driver_features &&& (1 <<< VIRTIO_F_VERSION_1) ≠ 0) :
    ∃ fds, (prepare_activate d).1 = Except.ok fds ∧
      fds.length = d.config.queues.length ∧
      (prepare_activate d).2.length = d.config.queues.length ∧
      ∀ i, i < d.config.queues.length →
        fds[i]? = some { id := i, nonblocking := true } ∧
        (prepare_activate d).2[i]? = some
          { fd := i, flags := BAO_IOEVENTFD_FLAG_DATAMATCH,
            addr := d.mmio.range.base + VIRTIO_MMIO_QUEUE_NOTIFY_OFFSET,
            len := 4, reserved := 0, data := i } := by
  have hpa := prepare_activate_ok d hact hfeat
  refine ⟨(List.range' 0 d.config.queues.length).map
    (fun i => { id := i, nonblocking := true }), by rw [hpa], by simp,
    by rw [hpa]; simp, ?_⟩
  intro i hi
  constructor
  · rw [List.getElem?_map, List.getElem?_range' 0 1 hi]
    simp
  · rw [hpa]
    show ((List.range' 0 d.config.queues.length).map _)[i]? = _
    rw [List.getElem?_map, List.getElem?_range' 0 1 hi]
    simp [register_ioeventfd]

/-- Claim C5 witness: on the two-queue device, two registrations are issued
and the registration for queue 1 carries fd 1, the DATAMATCH flag (2), address
`0xA003E00 + 0x50`, length 4 and datamatch 1. -/
theorem c5_ioeventfd_per_queue_witness :
    (prepare_activate twoQueueDevice).2.length = 2 ∧
    (prepare_activate twoQueueDevice).2[1]? = some
      { fd := 1, flags := 2, addr := 0xA003E50, len := 4, reserved := 0,
        data := 1 } := by
  obtain ⟨fds, _h1, _h2, h3, h4⟩ :=
    c5_ioeventfd_per_queue twoQueueDevice (by decide) (by decide)
  refine ⟨by simpa using h3, ?_⟩
  have h := (h4 1 (by decide)).2
  simpa [BAO_IOEVENTFD_FLAG_DATAMATCH, VIRTIO_MMIO_QUEUE_NOTIFY_OFFSET,
    twoQueueDevice] using h

/-- Claim C6: the ten ioctl request codes computed from
`(direction << 30) | (payload size << 16) | (0xA6 << 8) | nr` — with payload
sizes derived from the `repr(C)` layouts of `u32`, `BaoIoRequest` (72 bytes),
`BaoIoEventFd` (32 bytes) and `BaoIrqFd` (8 bytes) — equal the pre-declared
constants of `test_ioctls`, bit-exactly. -/
theorem c6_ioctl_codes :
    BAO_IOCTL_VM_VIRTIO_BACKEND_CREATE = 0x4004A601 ∧
    BAO_IOCTL_VM_VIRTIO_BACKEND_DESTROY = 0x4004A602 ∧
    BAO_IOCTL_IO_CREATE_CLIENT = 0x0000A603 ∧
    BAO_IOCTL_IO_DESTROY_CLIENT = 0x0000A604 ∧
    BAO_IOCTL_IO_ATTACH_CLIENT = 0x0000A605 ∧
    BAO_IOCTL_IO_REQUEST = 0xC048A606 ∧
    BAO_IOCTL_IO_REQUEST_NOTIFY_COMPLETED = 0x4048A607 ∧
    BAO_IOCTL_IO_NOTIFY_GUEST = 0x0000A608 ∧
    BAO_IOCTL_IOEVENTFD = 0x4020A609 ∧
    BAO_IOCTL_IRQFD = 0x4008A60A := by
  decide

/-- Claim C7: the block queue handler takes its error path — removing exactly
its own delivered file descriptor's interests from `ops` — precisely when the
event set is not IN, or the event datum differs from the expected 0, or the
ioeventfd read fails, or draining the queue fails; on success it removes
nothing; and interests on other file descriptors always survive, so other
subscribers keep running. -/
theorem c7_handler_error_removal (ev : EventsSt) (readOk queueOk : Bool)
    (ops : List InterestSt) :
    ((ev.eventSet ≠ EVENT_SET_IN ∨ ev.data ≠ IOEVENT_DATA ∨
        readOk = false ∨ queueOk = false) →
      queueHandlerProcess ev readOk queueOk ops =
        { ops := opsRemove ops ev, error := true }) ∧
    (ev.eventSet = EVENT_SET_IN → ev.data = IOEVENT_DATA →
      readOk = true → queueOk = true →
      queueHandlerProcess ev readOk queueOk ops =
        { ops := ops, error := false }) ∧
    (∀ it ∈ ops, it.fd ≠ ev.fd →
      it ∈ (queueHandlerProcess ev readOk queueOk ops).ops) := by
  by_cases h1 : ev.eventSet = EVENT_SET_IN <;>
    by_cases h2 : ev.data = IOEVENT_DATA <;>
      cases readOk <;> cases queueOk <;>
        simp_all [queueHandlerProcess, opsRemove, List.mem_filter]

/-- Claim C7 witness: concrete runs of the handler.  With an unexpected event
set the handler drops only its own fd (7) and interest `(9, 1)` survives;
with event set IN, datum 0 and both reads succeeding it removes nothing. -/
theorem c7_handler_error_removal_witness :
    (queueHandlerProcess { fd := 7, eventSet := 4, data := 0 } true true
        [{ fd := 7, data := 0 }, { fd := 9, data := 1 }] =
      { ops := [{ fd := 9, data := 1 }], error := true }) ∧
    (queueHandlerProcess { fd := 7, eventSet := 1, data := 0 } true true
        [{ fd := 7, data := 0 }, { fd := 9, data := 1 }] =
      { ops := [{ fd := 7, data := 0 }, { fd := 9, data := 1 }],
        error := false }) := by
  constructor
  · have h := (c7_handler_error_removal { fd := 7, eventSet := 4, data := 0 }
      true true [{ fd := 7, data := 0 }, { fd := 9, data := 1 }]).1
      (Or.inl (by decide))
    rw [h]
    decide
  · exact (c7_handler_error_removal { fd := 7, eventSet := 1, data := 0 }
      true true [{ fd := 7, data := 0 }, { fd := 9, data := 1 }]).2.1
      rfl rfl rfl rfl

/-- Claim C8: from any initial interrupt-status byte, `signal_used_queue`
performs the atomic OR of the used-ring bit strictly before the irqfd write,
every irqfd write in its trace executes in a state whose interrupt status
already has bit 0 (`VIRTIO_MMIO_INT_VRING`) set, and the final state has the
bit set and exactly one value 1 appended to the irqfd. -/
theorem c8_signal_order (s : SigState) :
    (∀ p ∈ execTrace s signalUsedQueueOps, p.2 = SigOp.irqWrite 1 →
      Nat.testBit p.1.status 0 = true) ∧
    (execTrace s signalUsedQueueOps).map Prod.snd =
      [SigOp.fetchOr VIRTIO_MMIO_INT_VRING, SigOp.irqWrite 1] ∧
    execState s signalUsedQueueOps =
      { status := s.status ||| VIRTIO_MMIO_INT_VRING,
        irqWrites := s.irqWrites ++ [1] } := by
  refine ⟨?_, rfl, rfl⟩
  intro p hp he
  rw [show execTrace s signalUsedQueueOps =
    [(s, SigOp.fetchOr VIRTIO_MMIO_INT_VRING),
     (SigOp.applyOp s (SigOp.fetchOr VIRTIO_MMIO_INT_VRING),
      SigOp.irqWrite 1)] from rfl] at hp
  rcases List.mem_cons.mp hp with hp | hp
  · rw [hp] at he
    simp at he
  · rcases List.mem_cons.mp hp with hp | hp
    · rw [hp]
      simp [SigOp.applyOp, VIRTIO_MMIO_INT_VRING, Nat.testBit_or]
    · exact absurd hp (List.not_mem_nil p)

/-- Claim C8 witness: from status `4`, the irqfd write executes in the traced
state `{status := 4 ||| 1}`, whose bit 0 is set. -/
theorem c8_signal_order_witness :
    (({ status := 4 ||| 1, irqWrites := [] } : SigState), SigOp.irqWrite 1) ∈
      execTrace { status := 4, irqWrites := [] } signalUsedQueueOps ∧
    Nat.testBit (({ status := 4 ||| 1, irqWrites := [] } : SigState)).status
      0 = true := by
  refine ⟨by decide, ?_⟩
  exact (c8_signal_order { status := 4, irqWrites := [] }).1
    ({ status := 4 ||| 1, irqWrites := [] }, SigOp.irqWrite 1)
    (by decide) rfl

/-- `Nat.testBit 1 i` is true exactly at bit 0. -/
theorem testBit_one (i : Nat) : (1 : Nat).testBit i = decide (i = 0) := by
  cases i with
  | zero => decide
  | succ k => simp [Nat.testBit_succ]

/-- Claim C9: every poll of the vhost-net interrupt status sets the
used-buffer bit (bit 0) in the shared byte before returning it, so the value
any such read observes has bit 0 set; all other bits are passed through
unchanged. -/
theorem c9_vhost_interrupt_status (status : Nat) :
    Nat.testBit (vhostNetInterruptStatus status).1 0 = true ∧
    Nat.testBit (vhostNetInterruptStatus status).2 0 = true ∧
    (∀ i, i ≠ 0 →
      Nat.testBit (vhostNetInterruptStatus status).1 i =
        Nat.testBit status i) := by
  refine ⟨?_, ?_, ?_⟩
  · simp [vhostNetInterruptStatus, VIRTIO_MMIO_INT_VRING, Nat.testBit_or]
  · simp [vhostNetInterruptStatus, VIRTIO_MMIO_INT_VRING, Nat.testBit_or]
  · intro i hi
    simp [vhostNetInterruptStatus, VIRTIO_MMIO_INT_VRING, Nat.testBit_or,
      testBit_one, hi]

/-- Claim C9 witness: polling from status `0x02` observes `0x03`, bit 0 set
and bit 1 preserved. -/
theorem c9_vhost_interrupt_status_witness :
    Nat.testBit (vhostNetInterruptStatus 0x02).2 0 = true ∧
    Nat.testBit (vhostNetInterruptStatus 0x02).1 1 = Nat.testBit 0x02 1 := by
  exact ⟨(c9_vhost_interrupt_status 0x02).2.1,
    (c9_vhost_interrupt_status 0x02).2.2 1 (by decide)⟩

/-- Claim C10, counterexample.  `edgeMmioConfig` is constructible with
`MmioConfig::new` and its base addition `base + size = 2 ^ 64 - 0x100` does
not overflow `u64`, yet `next()` does not return the incremented config: the
new range's last address `base + size + 0x1FF` overflows, so
`MmioRange::new` inside `MmioConfig::new` rejects it with a bus error (and
not with `Overflow` either). -/
theorem c10_counterexample :
    mmioConfigNew (2 ^ 64 - 0x300) 0x200 0x2F = Except.ok edgeMmioConfig ∧
    edgeMmioConfig.range.base + edgeMmioConfig.range.size < 2 ^ 64 ∧
    mmioConfigNext edgeMmioConfig =
      Except.error (MmioConfigError.bus BusRangeError.invalidRange) := by
  decide

/-- Claim C10 (amended): `c.next()` returns the config with base
`c.base + c.size`, the same size, and interrupt number `c.gsi + 1` (mod
`2 ^ 32`) whenever the base addition does not overflow `u64` and the new
range's last address `c.base + 2*c.size - 1` also fits in `u64`; when the
base addition overflows it returns the `Overflow` error, and when only the
new range's end overflows it returns the bus `InvalidRange` error — in no
case does it wrap, so bus ranges produced by repeated `next()` never alias
low addresses. -/
theorem c10_next_characterisation (c : MmioConfigSt) :
    (c.range.base + c.range.size < 2 ^ 64 →
      c.range.base + c.range.size + (c.range.size - 1) < 2 ^ 64 →
      c.range.size ≠ 0 →
      mmioConfigNext c = Except.ok
        { range := { base := c.range.base + c.range.size, size := c.range.size },
          gsi := (c.gsi + 1) % 2 ^ 32 }) ∧
    (c.range.base + c.range.size ≥ 2 ^ 64 →
      mmioConfigNext c = Except.error MmioConfigError.overflow) ∧
    (c.range.base + c.range.size < 2 ^ 64 → c.range.size ≠ 0 →
      c.range.base + c.range.size + (c.range.size - 1) ≥ 2 ^ 64 →
      mmioConfigNext c =
        Except.error (MmioConfigError.bus BusRangeError.invalidRange)) := by
  refine ⟨fun h1 h2 h3 => ?_, fun h1 => ?_, fun h1 h2 h3 => ?_⟩
  · rw [mmioConfigNext, if_neg (by omega), mmioConfigNew, mmioRangeNew,
      if_neg h3, if_neg (by omega)]
  · rw [mmioConfigNext, if_pos h1]
  · rw [mmioConfigNext, if_neg (by omega), mmioConfigNew, mmioRangeNew,
      if_neg h2, if_pos h3]

/-- Claim C10 witness: the characterisation applied to the config
`(0x1000, 0x200, gsi 0x2F)` — success branch — and to a config whose base
addition overflows — `Overflow` branch. -/
theorem c10_next_characterisation_witness :
    mmioConfigNext { range := { base := 0x1000, size := 0x200 }, gsi := 0x2F }
      = Except.ok { range := { base := 0x1200, size := 0x200 }, gsi := 0x30 } ∧
    mmioConfigNext
        { range := { base := 2 ^ 64 - 0x100, size := 0x200 }, gsi := 0x2F } =
      Except.error MmioConfigError.overflow := by
  constructor
  · have h := (c10_next_characterisation
      { range := { base := 0x1000, size := 0x200 }, gsi := 0x2F }).1
      (by decide) (by decide) (by decide)
    rw [h]
    decide
  · exact (c10_next_characterisation
      { range := { base := 2 ^ 64 - 0x100, size := 0x200 }, gsi := 0x2F }).2.1
      (by decide)

end BaoVirtio
